import Mathlib

/-!
# Verification of the `build_assert` crate

A shallow embedding of the `build_assert` macro crate and its `env_id`
companion proc-macro, together with theorems settling the specification
claims.

The crate's macros are `macro_rules!` definitions whose expansion is
selected by `cfg` flags (`build = "debug"` / `build = "release"`, set by
`build.rs` from the cargo `PROFILE`, and the `no_asm` feature).  We embed
the post-monomorphisation expansion of each macro invocation as a small
statement AST, and the toolchain stages that the crate's trick relies on
(the optimizer's constant folding, the assembler, the linker) as explicit
functions on that AST.
-/

namespace BuildAssert

/-- Build profile, as reported by `build.rs` (`src/build.rs:1-5`): cargo's
`PROFILE` becomes the `build = "debug"` / `build = "release"` cfg. -/
inductive Profile where
  | debug
  | release
deriving DecidableEq, Repr

/-- A compilation configuration: the profile cfg, whether the `no_asm`
feature is enabled, and the value of the `BUILD_ERROR_SYM` environment
variable at build time (`none` when unset). -/
structure Config where
  profile : Profile
  noAsm : Bool
  buildErrorSymEnv : Option String
deriving DecidableEq, Repr

/-- A source position, as produced by `core::file!` / `core::line!` /
`core::column!` at the `build_error!` expansion site. -/
structure Pos where
  file : String
  line : Nat
  col : Nat
deriving DecidableEq, Repr

/-- Statements a macro expansion can produce.  `panicStmt` is
`core::panic!(msg)`, `asmInstr` is `core::arch::asm!(text)`, `callExtern`
is an `unsafe` call to an `extern "Rust"` symbol that nothing defines,
`ite c s` is `if c { s }` where the condition is already a concrete
boolean (all const generics instantiated). -/
inductive Stmt where
  | skip
  | panicStmt (msg : String)
  | asmInstr (text : String)
  | callExtern (sym : String)
  | ite (cond : Bool) (body : Stmt)
  | seq (a b : Stmt)
deriving DecidableEq, Repr

/-! ## The `env_id` proc-macro (`src/env_id/src/lib.rs`) -/

/-- Tokens of the `env_id!` macro input, as consumed by the `syn` parsers
in `src/env_id/src/lib.rs:98-152`. -/
inductive Tok where
  | litStr (s : String)
  | identTok (s : String)
  | question
  | colon
  | fatArrow
deriving DecidableEq, Repr

/-- AST of the `env_id` macro (`src/env_id/src/lib.rs:91-96`): a literal
environment-variable name, an optional default identifier, and an optional
apply-to macro name. -/
structure EnvId where
  name : String
  default_id : Option String
  apply_to : Option String
deriving DecidableEq, Repr

/-- `DefaultId::parse` (`src/env_id/src/lib.rs:129-137`): `? : ident`. -/
def parseDefaultId : List Tok → Option (String × List Tok)
  | .question :: .colon :: .identTok d :: rest => some (d, rest)
  | _ => none

/-- `ApplyTo::parse` (`src/env_id/src/lib.rs:145-152`): `=> ident`. -/
def parseApplyTo : List Tok → Option (String × List Tok)
  | .fatArrow :: .identTok m :: rest => some (m, rest)
  | _ => none

/-- `EnvId::parse` (`src/env_id/src/lib.rs:98-120`): a literal string,
then an optional default identifier if the next token is `?`, then an
optional apply-to macro if the next token is `=>`; `syn::parse` requires
the whole input to be consumed. -/
def EnvId.parse : List Tok → Option EnvId
  | .litStr name :: rest =>
    let (dflt, rest1) :=
      match parseDefaultId rest with
      | some (d, r) => (some d, r)
      | none => (none, rest)
    let (app, rest2) :=
      match parseApplyTo rest1 with
      | some (m, r) => (some m, r)
      | none => (none, rest1)
    if rest2 = [] then some ⟨name, dflt, app⟩ else none
  | _ => none

/-- Results of expanding `env_id!`: an identifier, an invocation
`m!(ident);` of another macro on the identifier, or a compile error. -/
inductive EnvIdExpansion where
  | identE (name : String)
  | applyE (m : String) (arg : String)
  | compileError (msg : String)
deriving DecidableEq, Repr

/-- Display of `std::env::VarError::NotPresent`, interpolated into the
error message by `parse_env_id`. -/
def varNotPresentMsg : String := "environment variable not found"

/-- `parse_env_id` (`src/env_id/src/lib.rs:71-89`): read the environment
variable; on success the identifier is its value; otherwise fall back to
the default identifier if one was given, else produce a compile error
`failed to get environment variable: {e}`.  The chosen identifier is then
either emitted directly or wrapped as `m!(ident);` when an apply-to macro
was given. -/
def parse_env_id (env : String → Option String) (e : EnvId) : EnvIdExpansion :=
  match env e.name with
  | some value =>
    match e.apply_to with
    | some m => .applyE m value
    | none => .identE value
  | none =>
    match e.default_id with
    | some d =>
      match e.apply_to with
      | some m => .applyE m d
      | none => .identE d
    | none => .compileError ("failed to get environment variable: " ++ varNotPresentMsg)

/-- The build-time environment seen by `env_id!` inside this crate: only
`BUILD_ERROR_SYM` may be set. -/
def envFor (buildErrorSymEnv : Option String) : String → Option String :=
  fun n => if n = "BUILD_ERROR_SYM" then buildErrorSymEnv else none

/-- The undefined extern symbol used on the `no_asm` path, produced by
`env_id!("BUILD_ERROR_SYM" ?: __build_error_impl)`
(`src/src/lib.rs:155-165`). -/
def build_error_sym (buildErrorSymEnv : Option String) : String :=
  match parse_env_id (envFor buildErrorSymEnv)
      ⟨"BUILD_ERROR_SYM", some "__build_error_impl", none⟩ with
  | .identE s => s
  | _ => ""

/-! ## The `build_error!` and `build_assert!` macros (`src/src/lib.rs`) -/

/-- The inline-assembly text emitted by the release-mode `build_error!`
(`src/src/lib.rs:197-212`):
`"build error at " file ":" line ":" column`. -/
def asmText (p : Pos) : String :=
  "build error at " ++ p.file ++ ":" ++ toString p.line ++ ":" ++ toString p.col

/-- Expansion of `build_error!(msg)` under a configuration
(`src/src/lib.rs:178-231`): in debug it is `core::panic!(msg)`; in release
without `no_asm` it is the inline-assembly pseudo-instruction; in release
with `no_asm` it is a call to the undefined extern symbol (the message
arguments are discarded on both release paths). -/
def build_error (cfg : Config) (msg : String) (p : Pos) : Stmt :=
  match cfg.profile, cfg.noAsm with
  | .debug, _ => .panicStmt msg
  | .release, false => .asmInstr (asmText p)
  | .release, true => .callExtern (build_error_sym cfg.buildErrorSymEnv)

/-- The default assertion message of `build_assert!(cond)`
(`src/src/lib.rs:249-253`): `"assertion failed: "` followed by
`core::stringify!($cond)`, the stringified source text of the condition. -/
def assertFailMsg (condText : String) : String :=
  "assertion failed: " ++ condText

/-- Expansion of `build_assert!($cond)` (`src/src/lib.rs:248-253`), after
all const generics are instantiated so the condition is a concrete
boolean: `if !cond { build_error!("assertion failed: " stringify!(cond)) }`. -/
def build_assert (cfg : Config) (cond : Bool) (condText : String) (p : Pos) : Stmt :=
  .ite (!cond) (build_error cfg (assertFailMsg condText) p)

/-- Expansion of `build_assert!($cond, $($arg)+)` (`src/src/lib.rs:254-258`):
`if !cond { build_error!($($arg)+) }` with the caller's formatted message. -/
def build_assert_with_msg (cfg : Config) (cond : Bool) (msg : String) (p : Pos) : Stmt :=
  .ite (!cond) (build_error cfg msg p)

/-! ## The toolchain stages -/

/-- The release-mode optimizer: const-folds every `if` whose condition is
a known boolean, deleting the dead branch (constant folding plus dead-code
elimination, the mechanism the crate relies on). -/
def optimize : Stmt → Stmt
  | .ite c s => if c then optimize s else .skip
  | .seq a b => .seq (optimize a) (optimize b)
  | s => s

/-- The statement as it reaches codegen: in release the optimizer has run,
in debug it has not. -/
def compiled (cfg : Config) (s : Stmt) : Stmt :=
  match cfg.profile with
  | .release => optimize s
  | .debug => s

/-- All inline-assembly instruction texts present in the emitted code
(the assembler sees every one, taken branch or not). -/
def asmInstrs : Stmt → List String
  | .asmInstr t => [t]
  | .ite _ s => asmInstrs s
  | .seq a b => asmInstrs a ++ asmInstrs b
  | _ => []

/-- All referenced extern symbols present in the emitted code (the linker
must resolve every one). -/
def externRefs : Stmt → List String
  | .callExtern sym => [sym]
  | .ite _ s => externRefs s
  | .seq a b => externRefs a ++ externRefs b
  | _ => []

/-- Modelled from the crate documentation (`src/src/lib.rs:104`): `build`
is not a valid instruction mnemonic on any target, so an inline-assembly
string whose first word is `build` fails to assemble; other instruction
texts are assumed to assemble. -/
def instrAssembles (t : String) : Bool :=
  !(t.data.take 6 == "build ".data)

/-- Outcome of the build: success, an assembler error on some instruction,
or a linker error on some undefined symbol. -/
inductive BuildResult where
  | success
  | asmError (instr : String)
  | linkError (sym : String)
deriving DecidableEq, Repr

/-- The build pipeline after macro expansion: optimize (release only),
then assemble every retained inline-assembly instruction, then resolve
every retained extern reference (nothing in the program defines the
build-error symbol, so any retained reference is undefined). -/
def buildOutcome (cfg : Config) (s : Stmt) : BuildResult :=
  let s2 := compiled cfg s
  match (asmInstrs s2).find? (fun t => !instrAssembles t) with
  | some t => .asmError t
  | none =>
    match externRefs s2 with
    | sym :: _ => .linkError sym
    | [] => .success

/-- Result of running the compiled program. -/
inductive RunResult where
  | ok
  | panicked (msg : String)
deriving DecidableEq, Repr

/-- Runtime semantics of a statement: `core::panic!` aborts with its
message, a conditional evaluates its condition at runtime, sequences
short-circuit on panic. -/
def run : Stmt → RunResult
  | .skip => .ok
  | .panicStmt m => .panicked m
  | .asmInstr _ => .ok
  | .callExtern _ => .ok
  | .ite c s => if c then run s else .ok
  | .seq a b =>
    match run a with
    | .ok => run b
    | r => r

/-- Number of runtime conditional branches remaining in a statement: a
condition inside one is evaluated at runtime, not at compile time. -/
def runtimeCondBranches : Stmt → Nat
  | .ite _ s => 1 + runtimeCondBranches s
  | .seq a b => runtimeCondBranches a + runtimeCondBranches b
  | _ => 0

/-! ## `build_assert_eq!` and `build_assert_ne!` (`src/src/lib.rs:261-321`)

Operand expressions may have side effects, so they are embedded as state
transformers `σ → α × σ`: evaluating the expression once yields its value
and the successor state.  The `match (&$left, &$right)` scrutinee of both
macros evaluates `$left` then `$right`, each textually once, and binds the
results by shared reference (`left_val`, `right_val`); everything after
the binders uses only those two values. -/

/-- An effectful operand expression: one evaluation from a state yields a
value and the next state. -/
def Exprm (σ α : Type) : Type := σ → α × σ

/-- Default-arm failure message of `build_assert_eq!`
(`src/src/lib.rs:267-271`), with `fmt` standing for the `{:?}` formatting
of the operand type. -/
def eqFailMsg {α : Type} (fmt : α → String) (l r : α) : String :=
  "assertion `left == right` failed\n  left: " ++ fmt l ++ "\n right: " ++ fmt r

/-- Message-arm failure message of `build_assert_eq!`
(`src/src/lib.rs:280-285`): the caller's formatted message followed by the
two values. -/
def eqFailMsgWith {α : Type} (fmt : α → String) (msg : String) (l r : α) : String :=
  "assertion `left == right` failed: " ++ msg ++ "\n  left: " ++ fmt l ++ "\n right: " ++ fmt r

/-- Default-arm failure message of `build_assert_ne!`
(`src/src/lib.rs:298-302`). -/
def neFailMsg {α : Type} (fmt : α → String) (l r : α) : String :=
  "assertion `left != right` failed\n  left: " ++ fmt l ++ "\n right: " ++ fmt r

/-- Message-arm failure message of `build_assert_ne!`
(`src/src/lib.rs:311-316`). -/
def neFailMsgWith {α : Type} (fmt : α → String) (msg : String) (l r : α) : String :=
  "assertion `left != right` failed: " ++ msg ++ "\n  left: " ++ fmt l ++ "\n right: " ++ fmt r

/-- Expansion of `build_assert_eq!($left, $right)` (`src/src/lib.rs:263-275`):
evaluate the two operands once into `left_val` and `right_val`, then guard
`build_error!` on `!(*left_val == *right_val)`. -/
def build_assert_eq {σ α : Type} [BEq α] (cfg : Config) (fmt : α → String)
    (l r : Exprm σ α) (p : Pos) : Exprm σ Stmt :=
  fun s =>
    let (lv, s1) := l s
    let (rv, s2) := r s1
    (.ite (!(lv == rv)) (build_error cfg (eqFailMsg fmt lv rv) p), s2)

/-- Expansion of `build_assert_eq!($left, $right, $($arg)+)`
(`src/src/lib.rs:276-289`). -/
def build_assert_eq_with_msg {σ α : Type} [BEq α] (cfg : Config) (fmt : α → String)
    (msg : String) (l r : Exprm σ α) (p : Pos) : Exprm σ Stmt :=
  fun s =>
    let (lv, s1) := l s
    let (rv, s2) := r s1
    (.ite (!(lv == rv)) (build_error cfg (eqFailMsgWith fmt msg lv rv) p), s2)

/-- Expansion of `build_assert_ne!($left, $right)` (`src/src/lib.rs:294-306`):
same shape as `build_assert_eq!` but the guard is `*left_val == *right_val`. -/
def build_assert_ne {σ α : Type} [BEq α] (cfg : Config) (fmt : α → String)
    (l r : Exprm σ α) (p : Pos) : Exprm σ Stmt :=
  fun s =>
    let (lv, s1) := l s
    let (rv, s2) := r s1
    (.ite (lv == rv) (build_error cfg (neFailMsg fmt lv rv) p), s2)

/-- Expansion of `build_assert_ne!($left, $right, $($arg)+)`
(`src/src/lib.rs:307-320`). -/
def build_assert_ne_with_msg {σ α : Type} [BEq α] (cfg : Config) (fmt : α → String)
    (msg : String) (l r : Exprm σ α) (p : Pos) : Exprm σ Stmt :=
  fun s =>
    let (lv, s1) := l s
    let (rv, s2) := r s1
    (.ite (lv == rv) (build_error cfg (neFailMsgWith fmt msg lv rv) p), s2)

/-- A pure operand expression: evaluating it has no effect. -/
def pureExpr {σ α : Type} (a : α) : Exprm σ α := fun s => (a, s)

/-- Whether a `build_assert_eq!` or `build_assert_ne!` expansion reaches
its `build_error!` branch: the guard of its conditional. -/
def errGuard : Stmt → Bool
  | .ite c _ => c
  | _ => false

/-! ## Helper lemmas -/

lemma data_append (a b : String) : (a ++ b).data = a.data ++ b.data := rfl

/-- The inline-assembly text emitted by release-mode `build_error!` has
mnemonic `build`, so it never assembles, whatever the source position. -/
lemma asmText_not_assembles (p : Pos) : instrAssembles (asmText p) = false := by
  unfold instrAssembles asmText
  simp only [data_append, List.append_assoc]
  rw [List.take_append_of_le_length (by decide)]
  decide

/-- In debug mode a retained `build_error!` is a panic, so the build
always succeeds whatever the guard. -/
lemma outcome_debug (noAsm : Bool) (env : Option String) (b : Bool) (m : String) (p : Pos) :
    buildOutcome ⟨.debug, noAsm, env⟩ (.ite b (build_error ⟨.debug, noAsm, env⟩ m p))
      = .success := rfl

/-- In release mode a true guard keeps the `build_error!` expansion; on
the inline-assembly path the build fails at the assembler. -/
lemma outcome_release_asm_retained (env : Option String) (m : String) (p : Pos) :
    buildOutcome ⟨.release, false, env⟩ (.ite true (build_error ⟨.release, false, env⟩ m p))
      = .asmError (asmText p) := by
  simp [buildOutcome, compiled, optimize, build_error, asmInstrs, externRefs,
    List.find?, asmText_not_assembles]

/-- In release mode a true guard keeps the `build_error!` expansion; on
the `no_asm` path the build fails at the linker on the configured
symbol. -/
lemma outcome_release_no_asm_retained (env : Option String) (m : String) (p : Pos) :
    buildOutcome ⟨.release, true, env⟩ (.ite true (build_error ⟨.release, true, env⟩ m p))
      = .linkError (build_error_sym env) := rfl

/-- In release mode a false guard lets the optimizer delete the
`build_error!` expansion, and the build succeeds on either feature
path. -/
lemma outcome_release_folded (noAsm : Bool) (env : Option String) (m : String) (p : Pos) :
    buildOutcome ⟨.release, noAsm, env⟩ (.ite false (build_error ⟨.release, noAsm, env⟩ m p))
      = .success := by
  cases noAsm <;> rfl

/-- Running the debug expansion with a true guard panics with the
message handed to `build_error!`. -/
lemma run_debug_retained (noAsm : Bool) (env : Option String) (m : String) (p : Pos) :
    run (compiled ⟨.debug, noAsm, env⟩ (.ite true (build_error ⟨.debug, noAsm, env⟩ m p)))
      = .panicked m := rfl

/-- Running the debug expansion with a false guard does nothing. -/
lemma run_debug_skipped (noAsm : Bool) (env : Option String) (m : String) (p : Pos) :
    run (compiled ⟨.debug, noAsm, env⟩ (.ite false (build_error ⟨.debug, noAsm, env⟩ m p)))
      = .ok := rfl

/-- Running the optimized release expansion with a false guard does
nothing: the whole conditional has been folded away. -/
lemma run_release_folded (noAsm : Bool) (env : Option String) (m : String) (p : Pos) :
    run (compiled ⟨.release, noAsm, env⟩ (.ite false (build_error ⟨.release, noAsm, env⟩ m p)))
      = .ok := by
  cases noAsm <;> rfl

/-! ## The claims -/

/-- C1: in release builds (default features), every `build_assert!`
invocation whose condition resolves to `false` once const generics are
instantiated fails the build: the expansion retains `build_error!`, which
emits the inline-assembly `build error` pseudo-instruction, and that
instruction cannot be assembled.  This holds for the default-message arm
and the custom-message arm alike. -/
theorem c1_release_false_assertion_fails_to_assemble :
    ∀ (env : Option String) (condText msg : String) (p : Pos),
      buildOutcome ⟨.release, false, env⟩
          (build_assert ⟨.release, false, env⟩ false condText p) = .asmError (asmText p)
      ∧ buildOutcome ⟨.release, false, env⟩
          (build_assert_with_msg ⟨.release, false, env⟩ false msg p) = .asmError (asmText p)
      ∧ instrAssembles (asmText p) = false := by
  intro env condText msg p
  exact ⟨outcome_release_asm_retained env (assertFailMsg condText) p,
    outcome_release_asm_retained env msg p, asmText_not_assembles p⟩

/-- C2: in debug builds, every `build_assert!` invocation whose condition
is `false` still builds successfully (the retained `build_error!` is just
`core::panic!`) and panics at runtime when reached, for both macro
arms. -/
theorem c2_debug_false_assertion_builds_and_panics :
    ∀ (noAsm : Bool) (env : Option String) (condText msg : String) (p : Pos),
      buildOutcome ⟨.debug, noAsm, env⟩
          (build_assert ⟨.debug, noAsm, env⟩ false condText p) = .success
      ∧ run (compiled ⟨.debug, noAsm, env⟩
          (build_assert ⟨.debug, noAsm, env⟩ false condText p))
          = .panicked (assertFailMsg condText)
      ∧ buildOutcome ⟨.debug, noAsm, env⟩
          (build_assert_with_msg ⟨.debug, noAsm, env⟩ false msg p) = .success
      ∧ run (compiled ⟨.debug, noAsm, env⟩
          (build_assert_with_msg ⟨.debug, noAsm, env⟩ false msg p)) = .panicked msg := by
  intro noAsm env condText msg p
  exact ⟨outcome_debug noAsm env true (assertFailMsg condText) p,
    run_debug_retained noAsm env (assertFailMsg condText) p,
    outcome_debug noAsm env true msg p,
    run_debug_retained noAsm env msg p⟩

/-- C3: a `build_assert!` whose condition is `true` has no effect in any
configuration: the build succeeds and running the expansion does nothing,
with or without a custom message. -/
theorem c3_true_assertion_no_effect :
    ∀ (cfg : Config) (condText msg : String) (p : Pos),
      buildOutcome cfg (build_assert cfg true condText p) = .success
      ∧ run (compiled cfg (build_assert cfg true condText p)) = .ok
      ∧ buildOutcome cfg (build_assert_with_msg cfg true msg p) = .success
      ∧ run (compiled cfg (build_assert_with_msg cfg true msg p)) = .ok := by
  intro cfg condText msg p
  obtain ⟨profile, noAsm, env⟩ := cfg
  cases profile
  · exact ⟨outcome_debug noAsm env false (assertFailMsg condText) p,
      run_debug_skipped noAsm env (assertFailMsg condText) p,
      outcome_debug noAsm env false msg p,
      run_debug_skipped noAsm env msg p⟩
  · exact ⟨outcome_release_folded noAsm env (assertFailMsg condText) p,
      run_release_folded noAsm env (assertFailMsg condText) p,
      outcome_release_folded noAsm env msg p,
      run_release_folded noAsm env msg p⟩

/-- C4 counterexample: in a debug build the compiled expansion of
`build_assert!(false)` still contains a runtime conditional on the
condition, so it is not true that the condition is never evaluated at
runtime in every build configuration. -/
theorem c4_counterexample_debug_runtime_branch :
    ¬ (runtimeCondBranches (compiled ⟨.debug, false, none⟩
        (build_assert ⟨.debug, false, none⟩ false "false" ⟨"src/lib.rs", 1, 1⟩)) = 0) := by
  decide

/-- C4 amended: the condition of `build_assert!` is resolved at compile
time only in release builds, where the optimizer folds the conditional
away entirely; in debug builds the expansion keeps one runtime
conditional, whose condition is evaluated when the assertion is
reached. -/
theorem c4_condition_folded_in_release_runtime_in_debug :
    ∀ (cfg : Config) (cond : Bool) (condText : String) (p : Pos),
      (cfg.profile = .release →
        runtimeCondBranches (compiled cfg (build_assert cfg cond condText p)) = 0)
      ∧ (cfg.profile = .debug →
        runtimeCondBranches (compiled cfg (build_assert cfg cond condText p)) = 1) := by
  intro cfg cond condText p
  obtain ⟨profile, noAsm, env⟩ := cfg
  cases profile
  · refine ⟨fun h => (nomatch h), fun _ => ?_⟩
    cases cond <;> cases noAsm <;> rfl
  · refine ⟨fun _ => ?_, fun h => (nomatch h)⟩
    cases cond <;> cases noAsm <;> rfl

/-- C4 witness: concrete instances of both halves of the amended
claim. -/
theorem c4_condition_folded_witness :
    runtimeCondBranches (compiled ⟨.release, false, none⟩
      (build_assert ⟨.release, false, none⟩ false "false" ⟨"src/lib.rs", 1, 1⟩)) = 0
    ∧ runtimeCondBranches (compiled ⟨.debug, false, none⟩
      (build_assert ⟨.debug, false, none⟩ false "false" ⟨"src/lib.rs", 1, 1⟩)) = 1 :=
  ⟨(c4_condition_folded_in_release_runtime_in_debug
      ⟨.release, false, none⟩ false "false" ⟨"src/lib.rs", 1, 1⟩).1 rfl,
    (c4_condition_folded_in_release_runtime_in_debug
      ⟨.debug, false, none⟩ false "false" ⟨"src/lib.rs", 1, 1⟩).2 rfl⟩

/-- C5: `build_assert!(P(N))` inside a function generic over a const
parameter `N`: an instantiation making the condition `true` builds in
release mode and runs without effect in debug mode, while an
instantiation making it `false` fails the release build at the assembler
and builds but panics at runtime in debug mode — even though `N` is not
concrete where the assertion is written, only at instantiation. -/
theorem c5_const_generic_instantiation :
    ∀ (P : Nat → Bool) (N : Nat) (env : Option String) (condText : String) (p : Pos),
      (P N = true →
        buildOutcome ⟨.release, false, env⟩
            (build_assert ⟨.release, false, env⟩ (P N) condText p) = .success
        ∧ buildOutcome ⟨.debug, false, env⟩
            (build_assert ⟨.debug, false, env⟩ (P N) condText p) = .success
        ∧ run (compiled ⟨.debug, false, env⟩
            (build_assert ⟨.debug, false, env⟩ (P N) condText p)) = .ok)
      ∧ (P N = false →
        buildOutcome ⟨.release, false, env⟩
            (build_assert ⟨.release, false, env⟩ (P N) condText p) = .asmError (asmText p)
        ∧ buildOutcome ⟨.debug, false, env⟩
            (build_assert ⟨.debug, false, env⟩ (P N) condText p) = .success
        ∧ run (compiled ⟨.debug, false, env⟩
            (build_assert ⟨.debug, false, env⟩ (P N) condText p))
            = .panicked (assertFailMsg condText)) := by
  intro P N env condText p
  constructor
  · intro h
    rw [h]
    exact ⟨outcome_release_folded false env (assertFailMsg condText) p,
      outcome_debug false env false (assertFailMsg condText) p,
      run_debug_skipped false env (assertFailMsg condText) p⟩
  · intro h
    rw [h]
    exact ⟨outcome_release_asm_retained env (assertFailMsg condText) p,
      outcome_debug false env true (assertFailMsg condText) p,
      run_debug_retained false env (assertFailMsg condText) p⟩

/-- C5 witness: the test's predicate `N > 10` at the passing
instantiation `N = 11` and the failing instantiation `N = 10`. -/
theorem c5_const_generic_witness :
    buildOutcome ⟨.release, false, none⟩
        (build_assert ⟨.release, false, none⟩ ((fun n => decide (n > 10)) 11) "N > 10"
          ⟨"src/lib.rs", 338, 3⟩) = .success
    ∧ buildOutcome ⟨.release, false, none⟩
        (build_assert ⟨.release, false, none⟩ ((fun n => decide (n > 10)) 10) "N > 10"
          ⟨"src/lib.rs", 338, 3⟩) = .asmError (asmText ⟨"src/lib.rs", 338, 3⟩)
    ∧ run (compiled ⟨.debug, false, none⟩
        (build_assert ⟨.debug, false, none⟩ ((fun n => decide (n > 10)) 10) "N > 10"
          ⟨"src/lib.rs", 338, 3⟩)) = .panicked (assertFailMsg "N > 10") :=
  ⟨((c5_const_generic_instantiation (fun n => decide (n > 10)) 11 none "N > 10"
      ⟨"src/lib.rs", 338, 3⟩).1 (by decide)).1,
    ((c5_const_generic_instantiation (fun n => decide (n > 10)) 10 none "N > 10"
      ⟨"src/lib.rs", 338, 3⟩).2 (by decide)).1,
    ((c5_const_generic_instantiation (fun n => decide (n > 10)) 10 none "N > 10"
      ⟨"src/lib.rs", 338, 3⟩).2 (by decide)).2.2⟩

/-- C6: on the degraded-support path (release mode, `no_asm` feature), a
failed assertion is left as a reference to an undefined extern symbol and
the build fails at the linker; the symbol is `__build_error_impl` when
`BUILD_ERROR_SYM` is unset and the variable's value when it is set; a
true condition lets the optimizer remove the reference and the build
succeeds. -/
theorem c6_no_asm_link_error_symbol :
    ∀ (env : Option String) (cond : Bool) (condText v : String) (p : Pos),
      (cond = false →
        buildOutcome ⟨.release, true, env⟩
            (build_assert ⟨.release, true, env⟩ cond condText p)
          = .linkError (build_error_sym env))
      ∧ (cond = true →
        buildOutcome ⟨.release, true, env⟩
            (build_assert ⟨.release, true, env⟩ cond condText p) = .success)
      ∧ build_error_sym none = "__build_error_impl"
      ∧ build_error_sym (some v) = v := by
  intro env cond condText v p
  refine ⟨fun h => ?_, fun h => ?_, rfl, rfl⟩
  · rw [h]
    exact outcome_release_no_asm_retained env (assertFailMsg condText) p
  · rw [h]
    exact outcome_release_folded true env (assertFailMsg condText) p

/-- C6 witness: concrete instances with the variable set and unset. -/
theorem c6_no_asm_witness :
    buildOutcome ⟨.release, true, some "hello"⟩
        (build_assert ⟨.release, true, some "hello"⟩ false "N > 5" ⟨"src/lib.rs", 2, 3⟩)
      = .linkError (build_error_sym (some "hello"))
    ∧ buildOutcome ⟨.release, true, none⟩
        (build_assert ⟨.release, true, none⟩ true "N > 5" ⟨"src/lib.rs", 2, 3⟩) = .success :=
  ⟨(c6_no_asm_link_error_symbol (some "hello") false "N > 5" "hello"
      ⟨"src/lib.rs", 2, 3⟩).1 rfl,
    (c6_no_asm_link_error_symbol none true "N > 5" "hello"
      ⟨"src/lib.rs", 2, 3⟩).2.1 rfl⟩

/-- C7: invoked with an environment-variable name, `env_id!` expands to
an identifier whose name is the variable's value; when the variable is
unset it expands to the default identifier given after `?:` if any, and
otherwise fails with a compile error beginning
`failed to get environment variable`; with the `=> m` form it instead
expands to an invocation of the macro `m` on the chosen identifier.  The
token forms parse to the expected ASTs. -/
theorem c7_env_id_expansion :
    ∀ (env : String → Option String) (n v d m : String),
      EnvId.parse [.litStr n] = some ⟨n, none, none⟩
      ∧ EnvId.parse [.litStr n, .question, .colon, .identTok d] = some ⟨n, some d, none⟩
      ∧ EnvId.parse [.litStr n, .question, .colon, .identTok d, .fatArrow, .identTok m]
          = some ⟨n, some d, some m⟩
      ∧ (env n = some v → parse_env_id env ⟨n, none, none⟩ = .identE v
          ∧ parse_env_id env ⟨n, some d, none⟩ = .identE v)
      ∧ (env n = none → parse_env_id env ⟨n, some d, none⟩ = .identE d)
      ∧ (env n = none → ∃ msg, parse_env_id env ⟨n, none, none⟩ = .compileError msg
          ∧ msg.data.take 34 = "failed to get environment variable".data)
      ∧ (env n = some v → parse_env_id env ⟨n, some d, some m⟩ = .applyE m v)
      ∧ (env n = none → parse_env_id env ⟨n, some d, some m⟩ = .applyE m d) := by
  intro env n v d m
  refine ⟨rfl, rfl, rfl, fun h => ?_, fun h => ?_, fun h => ?_, fun h => ?_, fun h => ?_⟩
  · exact ⟨by simp [parse_env_id, h], by simp [parse_env_id, h]⟩
  · simp [parse_env_id, h]
  · exact ⟨"failed to get environment variable: " ++ varNotPresentMsg,
      by simp [parse_env_id, h], by decide⟩
  · simp [parse_env_id, h]
  · simp [parse_env_id, h]

/-- C7 witness: concrete instances covering a set variable, an unset
variable with a default, an unset variable without a default, and the
apply-to form. -/
theorem c7_env_id_witness :
    parse_env_id (envFor (some "hello")) ⟨"BUILD_ERROR_SYM", none, none⟩ = .identE "hello"
    ∧ parse_env_id (envFor none) ⟨"BUILD_ERROR_SYM", some "dflt", none⟩ = .identE "dflt"
    ∧ (∃ msg, parse_env_id (envFor none) ⟨"BUILD_ERROR_SYM", none, none⟩ = .compileError msg
        ∧ msg.data.take 34 = "failed to get environment variable".data)
    ∧ parse_env_id (envFor (some "hello")) ⟨"BUILD_ERROR_SYM", some "dflt", some "decl_fn"⟩
        = .applyE "decl_fn" "hello" :=
  ⟨((c7_env_id_expansion (envFor (some "hello")) "BUILD_ERROR_SYM" "hello" "dflt"
      "decl_fn").2.2.2.1 rfl).1,
    (c7_env_id_expansion (envFor none) "BUILD_ERROR_SYM" "hello" "dflt"
      "decl_fn").2.2.2.2.1 rfl,
    (c7_env_id_expansion (envFor none) "BUILD_ERROR_SYM" "hello" "dflt"
      "decl_fn").2.2.2.2.2.1 rfl,
    (c7_env_id_expansion (envFor (some "hello")) "BUILD_ERROR_SYM" "hello" "dflt"
      "decl_fn").2.2.2.2.2.2.1 rfl⟩

/-- C8: for all operands, `build_assert_ne!` reaches its `build_error!`
branch exactly when `build_assert_eq!` does not: the two expansions guard
the error on complementary outcomes of the same comparison of the bound
values. -/
theorem c8_ne_guard_complements_eq_guard :
    ∀ (σ α : Type) (inst : BEq α) (cfg : Config) (fmt : α → String)
      (l r : Exprm σ α) (p : Pos) (s : σ),
      errGuard (build_assert_ne cfg fmt l r p s).1
        = !(errGuard (build_assert_eq cfg fmt l r p s).1) := by
  intro σ α inst cfg fmt l r p s
  exact (Bool.not_not _).symm

/-- C9: `build_assert_eq!` and `build_assert_ne!` evaluate each operand
expression exactly once: whatever the operand effects, the state after
the expansion is exactly the state after one evaluation of the left
operand followed by one evaluation of the right operand, in every arm and
for every outcome of the comparison. -/
theorem c9_operands_evaluated_once :
    ∀ (σ α : Type) (inst : BEq α) (cfg : Config) (fmt : α → String) (msg : String)
      (l r : Exprm σ α) (p : Pos) (s : σ),
      (build_assert_eq cfg fmt l r p s).2 = (r (l s).2).2
      ∧ (build_assert_eq_with_msg cfg fmt msg l r p s).2 = (r (l s).2).2
      ∧ (build_assert_ne cfg fmt l r p s).2 = (r (l s).2).2
      ∧ (build_assert_ne_with_msg cfg fmt msg l r p s).2 = (r (l s).2).2 := by
  intro σ α inst cfg fmt msg l r p s
  exact ⟨rfl, rfl, rfl, rfl⟩

/-- C10: when `build_assert!(cond)` fails without a custom message the
error carries `assertion failed: ` followed by the stringified condition
text (observable as the debug-mode panic message), and with extra
message arguments it carries the caller's formatted message instead; on
the condition text `false` the default message is exactly
`assertion failed: false`, as the crate's own test expects. -/
theorem c10_assertion_failure_message :
    ∀ (noAsm : Bool) (env : Option String) (condText msg : String) (p : Pos),
      run (compiled ⟨.debug, noAsm, env⟩
          (build_assert ⟨.debug, noAsm, env⟩ false condText p))
        = .panicked ("assertion failed: " ++ condText)
      ∧ run (compiled ⟨.debug, noAsm, env⟩
          (build_assert_with_msg ⟨.debug, noAsm, env⟩ false msg p)) = .panicked msg
      ∧ assertFailMsg "false" = "assertion failed: false" := by
  intro noAsm env condText msg p
  exact ⟨run_debug_retained noAsm env (assertFailMsg condText) p,
    run_debug_retained noAsm env msg p, rfl⟩

end BuildAssert
